import Mathlib

/-!
# Verification of the `get_rich` chooser engine

A shallow embedding of the chooser rendering/interaction engine from the
`get_rich` package (`src/get_rich/chooser.py` and its specializations
`multi_chooser.py`, `filter_chooser.py`, `shortcut_chooser.py`), together
with proofs about the scroll-window computation, filtering, navigation and
the run loop.

Conventions:
* Python `int` values that can go negative are embedded as `Int`;
  list lengths and indices that are provably non-negative are `Nat`.
* Strings are embedded as `List Char`; `str.lower()` is embedded as a
  character-wise `Char.toLower` map and the Python substring test
  `a in b` as `List.IsInfix` on the character lists.
* Python attribute errors (lookups of attributes that are never assigned
  anywhere in the `get_rich` class hierarchy) and out-of-bounds list
  subscripts are embedded as `Except` errors.
-/

namespace GetRich

deriving instance DecidableEq for Except

/-- Source string type: Python `str` as a list of characters. -/
abbrev Str := List Char

/-- `Chooser.SCROLL_TOP_OFFSET` (chooser.py line 39). -/
def SCROLL_TOP_OFFSET : Nat := 3

/-- `Chooser.MIN_VISIBLE_WHEN_SCROLLING = SCROLL_TOP_OFFSET + 2` (chooser.py line 40). -/
def MIN_VISIBLE_WHEN_SCROLLING : Nat := SCROLL_TOP_OFFSET + 2

/-- `Chooser.Choice` (chooser.py lines 42-48): one list entry.
`value` is the display text (the `rich.Text` content embedded as its
character data); `is_highlighted` / `is_selected` are the transient cursor
flag and the persistent multi-select flag; `shortcut_key` is the optional
shortcut label. -/
structure Choice where
  index : Nat
  value : Str
  is_highlighted : Bool := false
  is_selected : Bool := false
  shortcut_key : Option Str := none
deriving Repr, DecidableEq

/-- Helper for `mk_choices`: the loop
`for i, choice in enumerate(choices): ... append(Chooser.Choice(i, value))`
(chooser.py lines 134-137), carrying the running counter `i`. -/
def mk_choices_from : Nat → List Str → List Choice
  | _, [] => []
  | i, v :: vs => { index := i, value := v } :: mk_choices_from (i + 1) vs

/-- `Chooser.__init__` master-list construction (chooser.py lines 134-137):
each `Choice` is numbered by its position in the unfiltered master list. -/
def mk_choices (values : List Str) : List Choice :=
  mk_choices_from 0 values

/-- The Unicode simple lowercase mapping as a partial table: ASCII
`A`-`Z` and the Greek capitals U+0391-U+03AB (excluding the unassigned
U+03A2) lower at +32; other code points are left unchanged.  This is the
context-free part of CPython `str.lower()` for the code points this
development uses; capital sigma U+03A3 is special-cased by `py_lower_aux`
below, exactly as CPython special-cases it before consulting the table. -/
def py_char_lower_simple (c : Char) : Char :=
  if 0x41 ≤ c.toNat && c.toNat ≤ 0x5A then Char.ofNat (c.toNat + 32)
  else if 0x391 ≤ c.toNat && c.toNat ≤ 0x3AB && c.toNat != 0x3A2 then
    Char.ofNat (c.toNat + 32)
  else c

/-- `_PyUnicode_IsCased` restricted to the code points this development
uses: ASCII letters and the Greek letters U+0391-U+03C9 (excluding the
unassigned U+03A2); other code points are treated as uncased. -/
def py_is_cased (c : Char) : Bool :=
  (0x41 ≤ c.toNat && c.toNat ≤ 0x5A) || (0x61 ≤ c.toNat && c.toNat ≤ 0x7A) ||
    (0x391 ≤ c.toNat && c.toNat ≤ 0x3C9 && c.toNat != 0x3A2)

/-- `_PyUnicode_IsCaseIgnorable` restricted to common code points:
apostrophe U+0027 and right single quote U+2019, full stop, colon, middle
dot U+00B7, Greek ano teleia U+0387, and the combining diacritical marks
U+0300-U+036F. -/
def py_is_case_ignorable (c : Char) : Bool :=
  c.toNat = 0x27 || c.toNat = 0x2E || c.toNat = 0x3A || c.toNat = 0xB7 ||
    c.toNat = 0x387 || c.toNat = 0x2019 ||
    (0x300 ≤ c.toNat && c.toNat ≤ 0x36F)

/-- CPython `handle_capital_sigma` (Objects/unicodeobject.c): a capital
sigma U+03A3 is in the Final_Sigma context when the nearest
non-case-ignorable character before it exists and is cased, and the
nearest non-case-ignorable character after it is absent or not cased;
it then lowers to final sigma U+03C2, otherwise to U+03C3.  `before` and
`after` are the characters on either side of the sigma. -/
def handle_capital_sigma (before after : Str) : Char :=
  let prev := before.reverse.dropWhile py_is_case_ignorable
  let next := after.dropWhile py_is_case_ignorable
  let final_sigma :=
    (match prev with
      | [] => false
      | c :: _ => py_is_cased c) &&
    (match next with
      | [] => true
      | c :: _ => !py_is_cased c)
  if final_sigma then Char.ofNat 0x3C2 else Char.ofNat 0x3C3

/-- The position-aware scan of CPython `str.lower()` (`lower_ucs4`):
each capital sigma is lowered through `handle_capital_sigma` with its
left and right context, every other character through the simple
mapping.  `before` accumulates the characters already passed. -/
def py_lower_aux : Str → Str → Str
  | _, [] => []
  | before, c :: rest =>
    (if c = 'Σ' then handle_capital_sigma before rest else py_char_lower_simple c) ::
      py_lower_aux (before ++ [c]) rest

/-- Embedding of Python `str.lower()`, including the context-sensitive
final-sigma rule. -/
def lower (s : Str) : Str := py_lower_aux [] s

/-- Embedding of the Python substring test `needle in haystack`. -/
def str_contains (needle haystack : Str) : Bool :=
  decide (needle <:+: haystack)

/-- `Chooser._filter_choices`, filtering part (chooser.py lines 495-507):
if the filter text is empty the display list is the whole master list,
otherwise the master entries whose lowercased text contains the lowercased
filter text, in master order. -/
def filter_choices (all_choices : List Choice) (filter_text : Str) : List Choice :=
  if filter_text.isEmpty then
    all_choices
  else
    all_choices.filter fun choice => str_contains (lower filter_text) (lower choice.value)

/-! ## The visible-window / scrolling algorithm -/

/-- The scroll window computed by `Chooser._render` (chooser.py lines
348-376): the half-open row range `[start, stop)` of the display list that
is drawn, plus the two scroll-arrow indicator flags. -/
structure ScrollWindow where
  start : Int
  stop : Int
  show_up_arrow : Bool
  show_down_arrow : Bool
deriving Repr, DecidableEq

/-- The scroll-window computation of `Chooser._render` (chooser.py lines
351-376), translated statement by statement.  `total_items` is the display
list length, `max_items` the visible row budget from `_visible_count`, and
`hfi` the value of `self.highlighted_filtered_index`. -/
def scroll_window (total_items max_items hfi : Nat) : ScrollWindow :=
  if total_items ≤ max_items then
    -- everything fits: no scrolling (lines 351-355)
    ⟨0, total_items, false, false⟩
  else
    -- adjusted_top_offset = min(SCROLL_TOP_OFFSET, max_items // 2) (line 358)
    let adjusted_top_offset : Int := min (SCROLL_TOP_OFFSET : Int) ((max_items / 2 : Nat) : Int)
    -- start = max(0, highlighted_filtered_index - adjusted_top_offset) (line 359)
    let start0 : Int := max 0 ((hfi : Int) - adjusted_top_offset)
    -- show_up_arrow = start > 0; show_down_arrow = (start + max_items) < total_items (lines 362-363)
    let up : Bool := decide (0 < start0)
    let down : Bool := decide (start0 + (max_items : Int) < (total_items : Int))
    let arrow_rows : Int := (if up then 1 else 0) + (if down then 1 else 0)
    -- if show_up_arrow: start += 1 (lines 370-371)
    let start1 : Int := if up then start0 + 1 else start0
    -- choice_rows = max_items - arrow_rows; start = min(start, total_items - choice_rows);
    -- end = start + choice_rows (lines 374-376)
    let choice_rows : Int := (max_items : Int) - arrow_rows
    let start2 : Int := min start1 ((total_items : Int) - choice_rows)
    ⟨start2, start2 + choice_rows, up, down⟩

/-- The scroll window as the specification describes it, written from the
spec's words (§4.3 of spec.md / claim C1), to be compared with the
source-derived `scroll_window`: offset = min(3, maxItems / 2);
start = max(0, highlightedFilteredIndex - offset); up-arrow iff start > 0,
down-arrow iff start + maxItems < N; if the up-arrow is shown start is
advanced by one extra row; choiceRows = maxItems minus one row per shown
arrow; start = min(start, N - choiceRows); end = start + choiceRows.
If N ≤ maxItems the window is [0, N) with no arrows. -/
def scroll_window_spec (N maxItems highlightedFilteredIndex : Nat) : ScrollWindow :=
  if N ≤ maxItems then
    ⟨0, N, false, false⟩
  else
    let offset : Int := min 3 ((maxItems / 2 : Nat) : Int)
    let start : Int := max 0 ((highlightedFilteredIndex : Int) - offset)
    let upArrow : Bool := decide (0 < start)
    let downArrow : Bool := decide (start + (maxItems : Int) < (N : Int))
    let arrowCount : Int := (if upArrow then 1 else 0) + (if downArrow then 1 else 0)
    let startAdvanced : Int := if upArrow then start + 1 else start
    let choiceRows : Int := (maxItems : Int) - arrowCount
    let startClamped : Int := min startAdvanced ((N : Int) - choiceRows)
    ⟨startClamped, startClamped + choiceRows, upArrow, downArrow⟩

/-- The sizing configuration read by `Chooser._visible_count`
(chooser.py lines 625-665): the `height` / `max_height` construction
parameters, the console height fallback, whether a border is drawn, and
whether a footer row is present (`footer_parts and any(footer_parts)`). -/
structure SizeConfig where
  height : Option Int := none
  max_height : Option Int := none
  console_height : Int := 24
  show_border : Bool := true
  has_footer : Bool := true
deriving Repr, DecidableEq

/-- `Chooser._visible_count` (chooser.py lines 625-665): the visible item
budget given the rows already in the table and the display-list length. -/
def visible_count (cfg : SizeConfig) (table_rows_so_far : Nat) (num_choices : Nat) : Nat :=
  let absolute_height : Int :=
    match cfg.height with
    | some h => h
    | none =>
      match cfg.max_height with
      | some m => m
      | none => cfg.console_height
  let a1 : Int := if cfg.show_border then absolute_height - 2 else absolute_height
  let a2 : Int := a1 - (table_rows_so_far : Int)
  let a3 : Int := if cfg.has_footer then a2 - 1 else a2
  let a4 : Int :=
    if (a3 : Int) < (num_choices : Int) then max a3 (MIN_VISIBLE_WHEN_SCROLLING : Int) else a3
  (max 1 a4).toNat

/-! ## Navigation -/

/-- The `up` branch of `Chooser._choose` (chooser.py lines 712-716):
decrement the cursor, or wrap to the last entry iff `wrap_navigation`
is set and the display list is non-empty; otherwise stay. -/
def nav_up (wrap_navigation : Bool) (n hfi : Nat) : Nat :=
  if 0 < hfi then hfi - 1
  else if wrap_navigation && decide (0 < n) then n - 1
  else hfi

/-- The `down` branch of `Chooser._choose` (chooser.py lines 718-722):
increment the cursor while below `len(display_choices) - 1`, or wrap to 0
iff `wrap_navigation` is set and the display list is non-empty. -/
def nav_down (wrap_navigation : Bool) (n hfi : Nat) : Nat :=
  if (hfi : Int) < (n : Int) - 1 then hfi + 1
  else if wrap_navigation && decide (0 < n) then 0
  else hfi

/-! ## The run-loop state machine

The engine state and the key-driven loop of `Chooser._choose` /
`Chooser.run` (chooser.py lines 670-804) and `MultiChooser.run`
(multi_chooser.py lines 135-183).  The lifecycle hooks (`on_key`,
`on_confirm`, `should_exit`, `before_run`, `after_run`) are `None` by
default and are absent in every behaviour the claims describe, so the
embedding models the hook-free loop; the `on_change` hook call sites are
tracked by the ghost counter `on_change_count`, incremented exactly where
the Python calls `self.on_change(self)`.  The `is_highlighted` flags are
recomputed before every render (true iff `index == highlighted_index`)
and are never read by the control flow, so the embedding tracks
`highlighted_index` and leaves the stored flags untouched. -/

/-- Python run-time failures that can escape `run()`: an attribute lookup
on a name never assigned in the class hierarchy, an out-of-bounds list
subscript, and the test reader's "exhausted before the chooser exited"
failure (tests/test_chooser.py `FakeReader.read_key`). -/
inductive PyError where
  | attributeError (attr : String)
  | indexError
  | readerExhausted
deriving Repr, DecidableEq

/-- The three templated validation error messages of
`MultiChooser._validate_selection` (multi_chooser.py lines 114-133),
with their numeric format arguments. -/
inductive ValidationError where
  | rangeSelected (min max : Nat)
  | minSelected (min : Nat)
  | maxSelected (max : Nat)
deriving Repr, DecidableEq

/-- The mutable state of a running `Chooser` (chooser.py `__init__`,
lines 134-180): the master list, the filtering fields, the two cursor
indices, the highlighted-choice snapshot, the `_error_message` overlay,
plus the ghost `on_change_count` instrumentation. -/
structure ChooserState where
  all_choices : List Choice
  enable_filtering : Bool
  filter_text : Str
  filtered_choices : List Choice
  highlighted_index : Nat
  highlighted_filtered_index : Nat
  highlighted_choice : Option Choice
  error_message : Option ValidationError
  on_change_count : Nat
deriving Repr, DecidableEq

/-- The read-only configuration of a `Chooser` relevant to the loop:
the `wrap_navigation` flag and the sizing inputs of `_visible_count`. -/
structure ChooserConfig where
  wrap_navigation : Bool := true
  size : SizeConfig := {}
deriving Repr, DecidableEq

/-- The state of a freshly constructed `Chooser(choices=values, ...)`
with no pre-selection (chooser.py lines 134-180): indices 0, empty filter,
no filtered list built yet, no error overlay; `highlighted_choice` is not
assigned until `_set_highlighted` runs, embedded as `none`. -/
def init_chooser_state (values : List Str) (enable_filtering : Bool) : ChooserState :=
  { all_choices := mk_choices values
    enable_filtering := enable_filtering
    filter_text := []
    filtered_choices := []
    highlighted_index := 0
    highlighted_filtered_index := 0
    highlighted_choice := none
    error_message := none
    on_change_count := 0 }

/-! ### Default keybinding dispatch (chooser.py lines 27-37) -/

def is_up_key (k : String) : Bool := k == "UP_ARROW"
def is_down_key (k : String) : Bool := k == "DOWN_ARROW"
def is_confirm_key (k : String) : Bool := k == "ENTER"
def is_cancel_key (k : String) : Bool := k == "ESC" || k == "CTRL_C"
def is_home_key (k : String) : Bool := k == "HOME"
def is_end_key (k : String) : Bool := k == "END"
def is_page_up_key (k : String) : Bool := k == "PAGE_UP"
def is_page_down_key (k : String) : Bool := k == "PAGE_DOWN"
def is_backspace_key (k : String) : Bool := k == "BACKSPACE"

/-- `Chooser._get_display_choices` (chooser.py lines 185-192): the
filtered list when filtering is enabled, else the master list (the
`is_highlighted` refresh there is render-only). -/
def get_display_choices (s : ChooserState) : List Choice :=
  if s.enable_filtering then s.filtered_choices else s.all_choices

/-- `Chooser._set_highlighted` (chooser.py lines 606-620), parametric in
the (virtual) display-choice getter: clear flags, re-read the display
entry under the cursor (an out-of-range cursor is Python `IndexError`),
update `highlighted_choice` / `highlighted_index`, and invoke `on_change`
(counted by the ghost field) -- the call is unconditional in the source. -/
def set_highlighted_with (get_disp : ChooserState → Except PyError (List Choice))
    (s : ChooserState) : Except PyError ChooserState :=
  match get_disp s with
  | .error e => .error e
  | .ok disp =>
    if disp.isEmpty then
      .ok { s with highlighted_choice := none, highlighted_index := 0,
                   on_change_count := s.on_change_count + 1 }
    else
      match disp.get? s.highlighted_filtered_index with
      | none => .error .indexError
      | some choice =>
        .ok { s with highlighted_choice := some choice,
                     highlighted_index := choice.index,
                     on_change_count := s.on_change_count + 1 }

/-- `Chooser._set_highlighted` with the base class display getter. -/
def set_highlighted (s : ChooserState) : Except PyError ChooserState :=
  set_highlighted_with (fun s => .ok (get_display_choices s)) s

/-- `Chooser._filter_choices` (chooser.py lines 495-516): recompute
`filtered_choices` from the master list and the filter text, resynchronize
`highlighted_filtered_index` to the display position whose `.index`
matches `highlighted_index` (first match, else 0), then `_set_highlighted`. -/
def filter_choices_state (s : ChooserState) : Except PyError ChooserState :=
  let s1 := { s with filtered_choices := filter_choices s.all_choices s.filter_text }
  let filtered_indices := (get_display_choices s1).map (·.index)
  let s2 :=
    if filtered_indices.contains s1.highlighted_index then
      { s1 with highlighted_filtered_index := filtered_indices.indexOf s1.highlighted_index }
    else
      { s1 with highlighted_filtered_index := 0 }
  set_highlighted s2

/-- `Chooser._prepare_choices` (chooser.py lines 197-202). -/
def prepare_choices (s : ChooserState) : Except PyError ChooserState :=
  if s.enable_filtering then filter_choices_state s else set_highlighted s

/-- Embedding of `len(key) == 1 and key.isprintable()` (chooser.py line
230) for the single-character key tokens of the KeyReader vocabulary
(ASCII printable approximation of `str.isprintable`). -/
def is_printable_key (k : String) : Bool :=
  k.length == 1 && k.toList.all fun c => 32 ≤ c.toNat && c.toNat != 127

/-- `Chooser._handle_other_key` (chooser.py lines 217-234): when filtering
is enabled, backspace trims the filter text, space or a printable
character appends to it, each mutation re-filtering; always returns
`False` (never requests confirmation).  The returned `Bool` is the
method's return value. -/
def chooser_handle_other_key (s : ChooserState) (k : String) :
    Except PyError (ChooserState × Bool) :=
  if s.enable_filtering then
    if is_backspace_key k then
      if s.filter_text.isEmpty then .ok (s, false)
      else
        match filter_choices_state { s with filter_text := s.filter_text.dropLast } with
        | .error e => .error e
        | .ok s' => .ok (s', false)
    else if k == "SPACE" then
      match filter_choices_state { s with filter_text := s.filter_text ++ [' '] } with
      | .error e => .error e
      | .ok s' => .ok (s', false)
    else if is_printable_key k then
      match filter_choices_state { s with filter_text := s.filter_text ++ k.toList } with
      | .error e => .error e
      | .ok s' => .ok (s', false)
    else .ok (s, false)
  else .ok (s, false)

/-- Outcome of one iteration of the `while True` loop in `Chooser._choose`
(chooser.py lines 682-758): continue looping with a new state, or leave
`_choose` returning `True` (confirm) or `False` (cancel). -/
inductive StepOut where
  | cont (s : ChooserState)
  | confirm (s : ChooserState)
  | cancel (s : ChooserState)
deriving Repr, DecidableEq

/-- The common tail of every non-returning dispatch branch of
`Chooser._choose` (chooser.py line 755): run `_set_highlighted` and
continue the loop (the re-render has no state effect). -/
def after_nav (s' : ChooserState) : Except PyError StepOut :=
  match set_highlighted s' with
  | .error e => .error e
  | .ok s'' => .ok (.cont s'')

/-- One iteration of `Chooser._choose`'s key loop (chooser.py lines
682-758), parametric in the (virtual) `_handle_other_key`: ignore empty
keys; any key dismisses an active error overlay without further
processing; otherwise dispatch against the default keybinding table in
source order (up, down, home, end, page_up, page_down, confirm, cancel,
other), and on every non-returning path run `_set_highlighted`. -/
def step_with (cfg : ChooserConfig)
    (handle_other : ChooserState → String → Except PyError (ChooserState × Bool))
    (s : ChooserState) (k : String) : Except PyError StepOut :=
  if k == "" then .ok (.cont s)
  else if s.error_message.isSome then .ok (.cont { s with error_message := none })
  else
    let n := (get_display_choices s).length
    if is_up_key k then
      after_nav { s with highlighted_filtered_index := (nav_up cfg.wrap_navigation n s.highlighted_filtered_index) }
    else if is_down_key k then
      after_nav { s with highlighted_filtered_index := (nav_down cfg.wrap_navigation n s.highlighted_filtered_index) }
    else if is_home_key k then
      after_nav { s with highlighted_filtered_index := 0 }
    else if is_end_key k then
      after_nav { s with highlighted_filtered_index :=
        (if 0 < n then n - 1 else s.highlighted_filtered_index) }
    else if is_page_up_key k then
      let step := max 1 (visible_count cfg.size 0 n - 1)
      after_nav { s with highlighted_filtered_index := s.highlighted_filtered_index - step }
    else if is_page_down_key k then
      let step := max 1 (visible_count cfg.size 0 n - 1)
      after_nav { s with highlighted_filtered_index :=
        (if 0 < n then min (n - 1) (s.highlighted_filtered_index + step)
         else s.highlighted_filtered_index) }
    else if is_confirm_key k then .ok (.confirm s)
    else if is_cancel_key k then .ok (.cancel s)
    else
      match handle_other s k with
      | .error e => .error e
      | .ok (s', true) => .ok (.confirm s')
      | .ok (s', false) => after_nav s'

/-- The result pair of a single-select `run()`: `(value, index)` or the
`(None, None)` pair, encoded as an `Option`. -/
abbrev ChooserResult := Option (Str × Nat)

/-- The key loop plus the confirm handling of `Chooser.run` (chooser.py
lines 763-804) for the base chooser, whose `_validate_selection` always
returns `None` and which has no `on_confirm` hook: drive `_choose` over
the key script; on cancel the result is the none pair; on confirm,
`_set_highlighted` runs once more and the result is built from
`highlighted_choice`.  Running out of keys is the test reader's
exhaustion failure. -/
def chooser_run_loop (cfg : ChooserConfig) :
    ChooserState → List String → Except PyError (ChooserResult × ChooserState)
  | _, [] => .error .readerExhausted
  | s, k :: ks =>
    match step_with cfg chooser_handle_other_key s k with
    | .error e => .error e
    | .ok (.cont s') => chooser_run_loop cfg s' ks
    | .ok (.cancel s') => .ok (none, s')
    | .ok (.confirm s') =>
      match set_highlighted s' with
      | .error e => .error e
      | .ok s'' =>
        match s''.highlighted_choice with
        | none => .ok (none, s'')
        | some choice => .ok (some (choice.value, choice.index), s'')

/-- `Chooser.run` (chooser.py lines 763-804) on a finite key script:
`_prepare_choices`, then the loop. -/
def chooser_run (cfg : ChooserConfig) (s : ChooserState) (keys : List String) :
    Except PyError (ChooserResult × ChooserState) :=
  match prepare_choices s with
  | .error e => .error e
  | .ok s1 => chooser_run_loop cfg s1 keys

/-! ### MultiChooser (multi_chooser.py) -/

/-- `MultiChooser._selected_count` (multi_chooser.py lines 80-81). -/
def selected_count (s : ChooserState) : Nat :=
  s.all_choices.countP (·.is_selected)

/-- `MultiChooser._validate_selection` (multi_chooser.py lines 114-133):
check the selected count against `min_selected` / `max_selected` and
return the corresponding templated error message, or `None`. -/
def multi_validate (min_selected max_selected : Option Nat) (s : ChooserState) :
    Option ValidationError :=
  let count := selected_count s
  match min_selected, max_selected with
  | some mn, some mx =>
    if count < mn || mx < count then some (.rangeSelected mn mx) else none
  | some mn, none => if count < mn then some (.minSelected mn) else none
  | none, some mx => if mx < count then some (.maxSelected mx) else none
  | none, none => none

/-- The `SPACE` branch of `MultiChooser._handle_other_key`
(multi_chooser.py lines 83-92): `_set_highlighted`, then toggle
`is_selected` on the highlighted choice (`None` when the display list is
empty, so the attribute write is a Python error on `NoneType`), then the
explicit `on_change` call.  In the source the toggle mutates the aliased
`Choice` object inside `all_choices`; reachable master lists have unique
indices, so the embedding toggles the entry with the highlighted index. -/
def toggle_selected (s : ChooserState) : Except PyError ChooserState :=
  match set_highlighted s with
  | .error e => .error e
  | .ok s' =>
    match s'.highlighted_choice with
    | none => .error (.attributeError "is_selected")
    | some choice =>
      let toggled := { choice with is_selected := !choice.is_selected }
      .ok { s' with
        all_choices := s'.all_choices.map fun a =>
          if a.index == choice.index then { a with is_selected := !a.is_selected } else a,
        highlighted_choice := some toggled,
        on_change_count := s'.on_change_count + 1 }

/-- `MultiChooser._handle_other_key` (multi_chooser.py lines 83-92):
space toggles, everything else defers to the base handler; the Python
returns `None` after a toggle, which the loop treats as falsy. -/
def multi_handle_other_key (s : ChooserState) (k : String) :
    Except PyError (ChooserState × Bool) :=
  if k == "SPACE" then
    match toggle_selected s with
    | .error e => .error e
    | .ok s' => .ok (s', false)
  else chooser_handle_other_key s k

/-- The result pair of `MultiChooser.run()`: `(values, indices)` or the
`(None, None)` pair, encoded as an `Option`. -/
abbrev MultiResult := Option (List Str × List Nat)

/-- `MultiChooser.run` (multi_chooser.py lines 135-183) on a finite key
script: drive `_choose`; on cancel the none pair; on confirm run
`_validate_selection` -- an error message re-enters the loop with the
error overlay set and the state otherwise intact -- else collect the
selected values and indices in master order, the empty selection giving
the none pair.  There is no `on_confirm` hook by default. -/
def multi_run_loop (cfg : ChooserConfig) (min_selected max_selected : Option Nat) :
    ChooserState → List String → Except PyError (MultiResult × ChooserState)
  | _, [] => .error .readerExhausted
  | s, k :: ks =>
    match step_with cfg multi_handle_other_key s k with
    | .error e => .error e
    | .ok (.cont s') => multi_run_loop cfg min_selected max_selected s' ks
    | .ok (.cancel s') => .ok (none, s')
    | .ok (.confirm s') =>
      match multi_validate min_selected max_selected s' with
      | some err =>
        multi_run_loop cfg min_selected max_selected { s' with error_message := some err } ks
      | none =>
        let selected := s'.all_choices.filter (·.is_selected)
        if selected.isEmpty then .ok (none, s')
        else .ok (some (selected.map (·.value), selected.map (·.index)), s')

/-- `MultiChooser.run` including the initial `_prepare_choices`. -/
def multi_run (cfg : ChooserConfig) (min_selected max_selected : Option Nat)
    (s : ChooserState) (keys : List String) : Except PyError (MultiResult × ChooserState) :=
  match prepare_choices s with
  | .error e => .error e
  | .ok s1 => multi_run_loop cfg min_selected max_selected s1 keys

/-! ### FilterChooser (filter_chooser.py)

`FilterChooser._filter_choices` (filter_chooser.py lines 92-104) ends with
`self._adjust_to_selection()`.  No method `_adjust_to_selection` is
defined anywhere in the `get_rich` package -- not on `FilterChooser`,
`Chooser` or `BaseControl` (it exists only in the unrelated legacy
`getrich` package) -- so in Python this call raises
`AttributeError: 'FilterChooser' object has no attribute '_adjust_to_selection'`. -/

/-- The missing `FilterChooser._adjust_to_selection`: an attribute lookup
that fails at run time (filter_chooser.py line 104). -/
def filter_adjust_to_selection (_s : ChooserState) : Except PyError ChooserState :=
  .error (.attributeError "_adjust_to_selection")

/-- `FilterChooser._filter_choices` (filter_chooser.py lines 92-104):
recompute `filtered_choices` (everything when `disable_filtering` or the
filter text is empty), then the failing `_adjust_to_selection` call. -/
def filter_chooser_filter_choices (disable_filtering : Bool) (s : ChooserState) :
    Except PyError ChooserState :=
  let filtered :=
    if disable_filtering || s.filter_text.isEmpty then s.all_choices
    else s.all_choices.filter fun choice =>
      str_contains (lower s.filter_text) (lower choice.value)
  filter_adjust_to_selection { s with filtered_choices := filtered }

/-- `FilterChooser.run` = `Chooser.run` with
`_prepare_choices = _filter_choices` (filter_chooser.py lines 88-90):
the very first `_prepare_choices` call raises, before any key is read. -/
def filter_chooser_run (disable_filtering : Bool) (cfg : ChooserConfig)
    (s : ChooserState) (keys : List String) :
    Except PyError (ChooserResult × ChooserState) :=
  match filter_chooser_filter_choices disable_filtering s with
  | .error e => .error e
  | .ok s1 => chooser_run_loop cfg s1 keys

/-! ### ShortcutChooser (shortcut_chooser.py)

`ShortcutChooser._get_display_choices` (shortcut_chooser.py lines
149-161) reads `self.choices` and `self.selected_index`, and
`_handle_other_key` (lines 189-198) calls `self._set_selected()`.  None
of these attributes/methods is ever assigned or defined in the `get_rich`
class hierarchy (`ShortcutChooser`, `Chooser`, `BaseControl`); they
belong to the legacy `getrich` package.  Each access therefore raises
`AttributeError` in Python. -/

/-- `ShortcutChooser._init_shortcuts` auto mode (shortcut_chooser.py
lines 102-104): keys `"1".."9","0"` as `str((i + 1) % 10)`. -/
def auto_shortcut_keys (num_choices : Nat) : List String :=
  (List.range num_choices).map fun i => toString ((i + 1) % 10)

/-- `ShortcutChooser._get_display_choices` (shortcut_chooser.py lines
149-161): the first statement of the loop body reads `self.choices`,
an attribute never assigned in the `get_rich` hierarchy. -/
def shortcut_get_display_choices (_s : ChooserState) : Except PyError (List Choice) :=
  .error (.attributeError "choices")

/-- `Chooser._set_highlighted` as dispatched on a `ShortcutChooser`:
the virtual `_get_display_choices` call raises. -/
def shortcut_set_highlighted (s : ChooserState) : Except PyError ChooserState :=
  set_highlighted_with shortcut_get_display_choices s

/-- `ShortcutChooser._handle_other_key` (shortcut_chooser.py lines
189-198): a key bound in `shortcut_key_to_index` assigns
`self.selected_filtered_index` (an ordinary attribute write, which
succeeds) and then calls `self._set_selected()`, a method that does not
exist in the `get_rich` hierarchy; unbound keys return `False`. -/
def shortcut_handle_other_key (shortcut_keys : List String) (s : ChooserState)
    (k : String) : Except PyError (ChooserState × Bool) :=
  if shortcut_keys.contains k then .error (.attributeError "_set_selected")
  else .ok (s, false)

/-- `ShortcutChooser.run` = `Chooser.run`: `_prepare_choices` is the base
one, `enable_filtering` is false, so it is `_set_highlighted`, whose
virtual `_get_display_choices` call raises before any key is read. -/
def shortcut_chooser_run (cfg : ChooserConfig) (s : ChooserState) (keys : List String) :
    Except PyError (ChooserResult × ChooserState) :=
  match shortcut_set_highlighted s with
  | .error e => .error e
  | .ok s1 => chooser_run_loop cfg s1 keys

/-! ## Theorems -/

/-- C1: Scroll-window computation: for every display list of length `N`,
every visible-row budget `maxItems`, and every cursor position
`highlightedFilteredIndex` in `[0, N)`: if `N ≤ maxItems` the visible
window is `[0, N)` with no scroll arrows and start 0; otherwise the
window is computed exactly as the spec describes -- offset
`min(3, maxItems / 2)`, `start = max(0, hfi - offset)`, up-arrow iff
`start > 0`, down-arrow iff `start + maxItems < N`, one extra row skipped
under a shown up-arrow, `choiceRows = maxItems` minus one per arrow,
`start = min(start, N - choiceRows)`, `end = start + choiceRows`. -/
theorem scroll_window_matches_spec (N maxItems hfi : Nat) (_h : hfi < N) :
    scroll_window N maxItems hfi = scroll_window_spec N maxItems hfi := rfl

/-- Witness for C1 at `N = 20`, `maxItems = 10`, `hfi = 7`. -/
theorem scroll_window_matches_spec_witness :
    7 < 20 ∧ scroll_window 20 10 7 = scroll_window_spec 20 10 7 :=
  ⟨by decide, scroll_window_matches_spec 20 10 7 (by decide)⟩

/-- C7: Navigation wrap: on an `N ≥ 1` item display list, with
`wrap_navigation = true` an up key at position 0 moves the cursor to
`N - 1` and a down key at `N - 1` moves it to 0; with
`wrap_navigation = false` both are no-ops at the boundary. -/
theorem navigation_wrap (n : Nat) (h : 1 ≤ n) :
    nav_up true n 0 = n - 1 ∧ nav_down true n (n - 1) = 0 ∧
    nav_up false n 0 = 0 ∧ nav_down false n (n - 1) = n - 1 := by
  unfold nav_up nav_down
  refine ⟨?_, ?_, ?_, ?_⟩ <;>
    · split_ifs <;> simp_all

/-- Witness for C7 at `n = 3`. -/
theorem navigation_wrap_witness :
    1 ≤ 3 ∧ (nav_up true 3 0 = 2 ∧ nav_down true 3 2 = 0 ∧
      nav_up false 3 0 = 0 ∧ nav_down false 3 2 = 2) :=
  ⟨by decide, navigation_wrap 3 (by decide)⟩

/-- A capital-sigma-free string lowercases position by position through
the simple mapping, whatever the left context. -/
theorem py_lower_aux_no_sigma (l : Str) (h : 'Σ' ∉ l) :
    ∀ before, py_lower_aux before l = l.map py_char_lower_simple := by
  induction l with
  | nil => intro b; rfl
  | cons c rest ih =>
    intro b
    simp only [List.mem_cons, not_or] at h
    simp only [py_lower_aux, List.map_cons]
    rw [if_neg fun hc => h.1 hc.symm, ih h.2 (b ++ [c])]

/-- `lower` on a capital-sigma-free string is the character-wise simple
mapping. -/
theorem lower_no_sigma (t : Str) (h : 'Σ' ∉ t) :
    lower t = t.map py_char_lower_simple :=
  py_lower_aux_no_sigma t h []

/-- For capital-sigma-free filter texts, extending the text weakens the
filter predicate: a string containing `lower (t ++ [c])` also contains
`lower t`. -/
theorem str_contains_of_append (t : Str) (c : Char) (v : Str)
    (ht : 'Σ' ∉ t) (hc : c ≠ 'Σ')
    (h : str_contains (lower (t ++ [c])) v = true) :
    str_contains (lower t) v = true := by
  simp only [str_contains, decide_eq_true_eq] at h ⊢
  have hmem : 'Σ' ∉ t ++ [c] := by
    intro hm
    rcases List.mem_append.mp hm with hm | hm
    · exact ht hm
    · simp only [List.mem_singleton] at hm
      exact hc hm.symm
  have hsplit : lower (t ++ [c]) = lower t ++ [py_char_lower_simple c] := by
    rw [lower_no_sigma (t ++ [c]) hmem, lower_no_sigma t ht, List.map_append]
    rfl
  have hpre : lower t <+: lower (t ++ [c]) := by
    rw [hsplit]
    exact ⟨[py_char_lower_simple c], rfl⟩
  exact hpre.isInfix.trans h

/-- Counterexample to C5 as stated: over the master list ["ασβ"]
(U+03B1 U+03C3 U+03B2), the filter text "ΑΣ" (U+0391 U+03A3) lowercases
with a final sigma to "ας", which matches nothing -- but appending
'Β' (U+0392) gives "ΑΣΒ", which lowercases to "ασβ" (the sigma is no
longer final) and matches the entry: appending a character grows the
display list from 0 to 1 entries, so it is neither a subsequence of, nor
no longer than, the display list before the append. -/
theorem filter_monotone_counterexample :
    filter_choices (mk_choices [['α', 'σ', 'β']]) ['Α', 'Σ'] = [] ∧
    filter_choices (mk_choices [['α', 'σ', 'β']]) (['Α', 'Σ'] ++ ['Β']) = (mk_choices [['α', 'σ', 'β']]) ∧
    ¬ (filter_choices (mk_choices [['α', 'σ', 'β']]) (['Α', 'Σ'] ++ ['Β'])).Sublist (filter_choices (mk_choices [['α', 'σ', 'β']]) ['Α', 'Σ']) ∧
    ¬ (filter_choices (mk_choices [['α', 'σ', 'β']]) (['Α', 'Σ'] ++ ['Β'])).length ≤ (filter_choices (mk_choices [['α', 'σ', 'β']]) ['Α', 'Σ']).length := by
  refine ⟨by decide, by decide, ?_, by decide⟩
  intro h
  exact absurd h.length_le (by decide)

/-- C5 (amended): Filter monotonicity holds for every filter text free of
the capital sigma U+03A3 (whose lowercase form depends on what follows
it): for every master list, every such filter text `t`, and every
character `c` other than the capital sigma, the display list for
`t ++ [c]` is an ordered subsequence of the display list for `t`, and in
particular no longer. -/
theorem filter_monotone_no_sigma (all_choices : List Choice) (t : Str) (c : Char)
    (ht : 'Σ' ∉ t) (hc : c ≠ 'Σ') :
    (filter_choices all_choices (t ++ [c])).Sublist (filter_choices all_choices t) ∧
    (filter_choices all_choices (t ++ [c])).length ≤ (filter_choices all_choices t).length := by
  have e1 : filter_choices all_choices (t ++ [c]) =
      all_choices.filter fun choice => str_contains (lower (t ++ [c])) (lower choice.value) := by
    unfold filter_choices
    rw [if_neg (by simp [List.isEmpty_iff])]
  have hsub : (filter_choices all_choices (t ++ [c])).Sublist (filter_choices all_choices t) := by
    rcases hte : t.isEmpty with _ | _
    · have e2 : filter_choices all_choices t =
          all_choices.filter fun choice => str_contains (lower t) (lower choice.value) := by
        unfold filter_choices
        rw [if_neg (by simp [hte])]
      rw [e1, e2]
      exact List.monotone_filter_right all_choices fun a ha =>
        str_contains_of_append t c (lower a.value) ht hc ha
    · have e2 : filter_choices all_choices t = all_choices := by
        unfold filter_choices
        rw [if_pos hte]
      rw [e1, e2]
      exact List.filter_sublist all_choices
  exact ⟨hsub, hsub.length_le⟩

/-- Witness for the amended C5 at master ["apple","banana"], filter text
"ba", appended character 'n' (no capital sigma anywhere). -/
theorem filter_monotone_no_sigma_witness :
    ('Σ' ∉ ("ba".toList : Str)) ∧ ('n' ≠ 'Σ') ∧
    ((filter_choices (mk_choices ["apple".toList, "banana".toList])
        ("ba".toList ++ ['n'])).Sublist
      (filter_choices (mk_choices ["apple".toList, "banana".toList]) "ba".toList) ∧
    (filter_choices (mk_choices ["apple".toList, "banana".toList])
        ("ba".toList ++ ['n'])).length ≤
      (filter_choices (mk_choices ["apple".toList, "banana".toList]) "ba".toList).length) :=
  ⟨by decide, by decide,
    filter_monotone_no_sigma (mk_choices ["apple".toList, "banana".toList])
      "ba".toList 'n' (by decide) (by decide)⟩

/-- A filter-text mutation as performed by `Chooser._handle_other_key`
(chooser.py lines 217-234): append a character (printable key or SPACE)
or trim the last character (backspace, a no-op on empty text). -/
inductive FilterMutation where
  | push (c : Char)
  | backspace
deriving Repr, DecidableEq

/-- Apply one filter-text mutation (chooser.py lines 220-233). -/
def apply_filter_mutation (t : Str) : FilterMutation → Str
  | .push c => t ++ [c]
  | .backspace => if t.isEmpty then t else t.dropLast

/-- The filter text after a sequence of mutations, starting empty. -/
def apply_filter_mutations (ms : List FilterMutation) : Str :=
  ms.foldl apply_filter_mutation []

/-- Every entry of the numbered master list sits at the position its
`index` field records. -/
theorem mk_choices_from_get (vs : List Str) :
    ∀ i : Nat, ∀ c ∈ mk_choices_from i vs,
      i ≤ c.index ∧ (mk_choices_from i vs).get? (c.index - i) = some c := by
  induction vs with
  | nil => intro i c hc; simp [mk_choices_from] at hc
  | cons v vs ih =>
    intro i c hc
    simp only [mk_choices_from, List.mem_cons] at hc
    rcases hc with rfl | hc
    · simp [mk_choices_from]
    · obtain ⟨hle, hget⟩ := ih (i + 1) c hc
      refine ⟨by omega, ?_⟩
      have hidx : c.index - i = (c.index - (i + 1)) + 1 := by omega
      rw [hidx]
      simpa [mk_choices_from] using hget

/-- C6: Index stability: for every master list and every sequence of
filter-text mutations, the resulting display list is an ordered
subsequence of the master list (filtering never reorders), and every
`Choice` in it still sits in the master list at the position its `index`
records (filtering never renumbers). -/
theorem filter_index_stability (values : List Str) (ms : List FilterMutation) :
    (filter_choices (mk_choices values) (apply_filter_mutations ms)).Sublist
      (mk_choices values) ∧
    ∀ c ∈ filter_choices (mk_choices values) (apply_filter_mutations ms),
      (mk_choices values).get? c.index = some c := by
  constructor
  · unfold filter_choices
    split
    · exact List.Sublist.refl _
    · exact List.filter_sublist _
  · intro c hc
    have hmem : c ∈ mk_choices values := by
      revert hc
      unfold filter_choices
      split
      · exact id
      · intro hc; exact (List.mem_filter.mp hc).1
    have := (mk_choices_from_get values 0 c (by simpa [mk_choices] using hmem)).2
    simpa [mk_choices] using this

/-- `_visible_count` returns at least 1 on every input (the final
`max(1, available_rows)`, chooser.py line 665). -/
theorem visible_count_pos (cfg : SizeConfig) (rows n : Nat) :
    1 ≤ visible_count cfg rows n := by
  rcases cfg with ⟨h, mh, ch, sb, hf⟩
  rcases h with _ | h <;> rcases mh with _ | mh <;> rcases sb <;> rcases hf <;>
    simp only [visible_count] <;> split_ifs <;> omega

/-- Whenever scrolling is required (the display list is longer than the
budget), `_visible_count` has already been raised to at least
`MIN_VISIBLE_WHEN_SCROLLING = 5` (chooser.py lines 661-663). -/
theorem visible_count_min_when_scrolling (cfg : SizeConfig) (rows n : Nat)
    (hscroll : visible_count cfg rows n < n) :
    MIN_VISIBLE_WHEN_SCROLLING ≤ visible_count cfg rows n := by
  revert hscroll
  rcases cfg with ⟨h, mh, ch, sb, hf⟩
  rcases h with _ | h <;> rcases mh with _ | mh <;> rcases sb <;> rcases hf <;>
    simp only [visible_count, MIN_VISIBLE_WHEN_SCROLLING, SCROLL_TOP_OFFSET] <;>
    split_ifs <;> omega

/-- The window invariant for the scrolling branch: with a budget of at
least 5 rows and a cursor inside the list, the computed window always
contains the cursor and stays inside the list. -/
theorem scroll_window_contains_cursor (N m hfi : Nat) (h5 : 5 ≤ m) (hm : m < N)
    (hh : hfi < N) :
    0 ≤ (scroll_window N m hfi).start ∧
    (scroll_window N m hfi).start ≤ (hfi : Int) ∧
    (hfi : Int) < (scroll_window N m hfi).stop ∧
    (scroll_window N m hfi).stop ≤ (N : Int) := by
  unfold scroll_window
  rw [if_neg (by omega)]
  simp only [decide_eq_true_eq, SCROLL_TOP_OFFSET]
  split_ifs <;> omega

/-- C2: Cursor visibility invariant: when scrolling is required
(`N > maxItems` for the budget `maxItems` returned by `_visible_count`,
which is at least 1 on every input and at least
`MIN_VISIBLE_WHEN_SCROLLING = 5` whenever scrolling is required) and the
cursor position is inside the display list, the rendered window
`[start, end)` contains the highlighted entry and lies inside `[0, N]`. -/
theorem cursor_always_visible (cfg : SizeConfig) (rows N hfi : Nat)
    (hscroll : visible_count cfg rows N < N) (hh : hfi < N) :
    (∀ c r n, 1 ≤ visible_count c r n) ∧
    MIN_VISIBLE_WHEN_SCROLLING ≤ visible_count cfg rows N ∧
    0 ≤ (scroll_window N (visible_count cfg rows N) hfi).start ∧
    (scroll_window N (visible_count cfg rows N) hfi).start ≤ (hfi : Int) ∧
    (hfi : Int) < (scroll_window N (visible_count cfg rows N) hfi).stop ∧
    (scroll_window N (visible_count cfg rows N) hfi).stop ≤ (N : Int) := by
  have h5 := visible_count_min_when_scrolling cfg rows N hscroll
  have hmain := scroll_window_contains_cursor N (visible_count cfg rows N) hfi
    (by simpa [MIN_VISIBLE_WHEN_SCROLLING, SCROLL_TOP_OFFSET] using h5) hscroll hh
  exact ⟨visible_count_pos, h5, hmain.1, hmain.2.1, hmain.2.2.1, hmain.2.2.2⟩

/-- Witness for C2: a chooser with fixed height 10, no border and no
footer over a 20-entry display list, cursor at row 7: the budget is 10,
scrolling is required, and the window is rows `[5, 13)`. -/
theorem cursor_always_visible_witness :
    visible_count { height := some 10, show_border := false, has_footer := false } 0 20 < 20 ∧
    7 < 20 ∧
    ((∀ c r n, 1 ≤ visible_count c r n) ∧
      MIN_VISIBLE_WHEN_SCROLLING ≤
        visible_count { height := some 10, show_border := false, has_footer := false } 0 20 ∧
      0 ≤ (scroll_window 20
        (visible_count { height := some 10, show_border := false, has_footer := false } 0 20)
        7).start ∧
      (scroll_window 20
        (visible_count { height := some 10, show_border := false, has_footer := false } 0 20)
        7).start ≤ (7 : Int) ∧
      (7 : Int) < (scroll_window 20
        (visible_count { height := some 10, show_border := false, has_footer := false } 0 20)
        7).stop ∧
      (scroll_window 20
        (visible_count { height := some 10, show_border := false, has_footer := false } 0 20)
        7).stop ≤ (20 : Int)) :=
  ⟨by decide, by decide,
    cursor_always_visible { height := some 10, show_border := false, has_footer := false }
      0 20 7 (by decide) (by decide)⟩

/-- C4: Validation gate: for a `MultiChooser` with `min_selected = 2`, in
any state with fewer than 2 choices selected and no overlay showing,
(1) a confirm key never terminates the run loop and never produces a
Result -- the run continues on the remaining keys with the
`min_selected` validation-error overlay displayed and the state otherwise
unchanged; (2) the next (non-empty) keypress dismisses the overlay,
returning exactly the prior state; (3) a subsequent cancel still returns
the `(None, None)` pair with the selection unchanged. -/
theorem multi_validation_gate (cfg : ChooserConfig) (s : ChooserState)
    (ks : List String) (k : String)
    (hcnt : selected_count s < 2) (hov : s.error_message = none) (hk : k ≠ "") :
    (multi_run_loop cfg (some 2) none s ("ENTER" :: ks) =
      multi_run_loop cfg (some 2) none
        { s with error_message := some (.minSelected 2) } ks) ∧
    (step_with cfg multi_handle_other_key
      { s with error_message := some (.minSelected 2) } k = .ok (.cont s)) ∧
    (multi_run_loop cfg (some 2) none s ["ENTER", k, "ESC"] = .ok (none, s)) := by
  have hovb : s.error_message.isSome = false := by simp [hov]
  have hkb : (k == "") = false := beq_eq_false_iff_ne.mpr hk
  have hstep_confirm :
      step_with cfg multi_handle_other_key s "ENTER" = .ok (.confirm s) := by
    simp [step_with, is_up_key, is_down_key, is_home_key, is_end_key, is_page_up_key,
      is_page_down_key, is_confirm_key, is_cancel_key, hovb]
  have hvalid : multi_validate (some 2) none s = some (.minSelected 2) := by
    simp [multi_validate, hcnt]
  have h1 : ∀ ks', multi_run_loop cfg (some 2) none s ("ENTER" :: ks') =
      multi_run_loop cfg (some 2) none
        { s with error_message := some (.minSelected 2) } ks' := by
    intro ks'
    simp [multi_run_loop, hstep_confirm, hvalid]
  have hclear : step_with cfg multi_handle_other_key
      { s with error_message := some (.minSelected 2) } k = .ok (.cont s) := by
    have hsome : ({ s with error_message := some (ValidationError.minSelected 2) } :
        ChooserState).error_message.isSome = true := rfl
    simp only [step_with, hkb, hsome, Bool.false_eq_true, if_false, if_true]
    cases s
    simp_all
  have hcancel : step_with cfg multi_handle_other_key s "ESC" = .ok (.cancel s) := by
    simp [step_with, is_up_key, is_down_key, is_home_key, is_end_key, is_page_up_key,
      is_page_down_key, is_confirm_key, is_cancel_key, hovb]
  refine ⟨h1 ks, hclear, ?_⟩
  rw [h1 [k, "ESC"]]
  simp [multi_run_loop, hclear, hcancel]

/-- Witness for C4: a `MultiChooser(choices=["a","b","c"], min_selected=2)`
in its freshly constructed state (nothing selected), dismissal key
`DOWN_ARROW`. -/
theorem multi_validation_gate_witness :
    selected_count (init_chooser_state ["a".toList, "b".toList, "c".toList] false) < 2 ∧
    (init_chooser_state ["a".toList, "b".toList, "c".toList] false).error_message = none ∧
    "DOWN_ARROW" ≠ "" ∧
    ((multi_run_loop {} (some 2) none
        (init_chooser_state ["a".toList, "b".toList, "c".toList] false) ("ENTER" :: []) =
      multi_run_loop {} (some 2) none
        { init_chooser_state ["a".toList, "b".toList, "c".toList] false with
          error_message := some (.minSelected 2) } []) ∧
    (step_with {} multi_handle_other_key
      { init_chooser_state ["a".toList, "b".toList, "c".toList] false with
        error_message := some (.minSelected 2) } "DOWN_ARROW" =
      .ok (.cont (init_chooser_state ["a".toList, "b".toList, "c".toList] false))) ∧
    (multi_run_loop {} (some 2) none
      (init_chooser_state ["a".toList, "b".toList, "c".toList] false)
      ["ENTER", "DOWN_ARROW", "ESC"] =
      .ok (none, init_chooser_state ["a".toList, "b".toList, "c".toList] false))) :=
  ⟨by decide, rfl, by decide,
    multi_validation_gate {} (init_chooser_state ["a".toList, "b".toList, "c".toList] false)
      [] "DOWN_ARROW" (by decide) rfl (by decide)⟩

/-- The navigation keys of the default binding table. -/
def is_nav_key (k : String) : Bool :=
  is_up_key k || is_down_key k || is_home_key k || is_end_key k ||
    is_page_up_key k || is_page_down_key k

/-- The state of `Chooser(choices=["a","b"], wrap_navigation=False)` right
after the initial `_prepare_choices` of `run()` (one `on_change` call has
happened, the cursor is on entry 0). -/
def two_item_prepared : ChooserState :=
  { all_choices := mk_choices ["a".toList, "b".toList]
    enable_filtering := false
    filter_text := []
    filtered_choices := []
    highlighted_index := 0
    highlighted_filtered_index := 0
    highlighted_choice := some { index := 0, value := "a".toList }
    error_message := none
    on_change_count := 1 }

/-- Counterexample to C9: in a two-item chooser with
`wrap_navigation = False`, an up key at position 0 is a clamped no-op --
the highlighted entry is unchanged -- yet `on_change` is invoked (the
ghost counter goes from 1 to 2), because `_set_highlighted` calls the
hook unconditionally (chooser.py lines 619-620).  The first conjunct
shows the state is the one really reached by `_prepare_choices`. -/
theorem onchange_fires_without_change :
    prepare_choices (init_chooser_state ["a".toList, "b".toList] false) =
      .ok two_item_prepared ∧
    step_with { wrap_navigation := false } chooser_handle_other_key
      two_item_prepared "UP_ARROW" =
      .ok (.cont { two_item_prepared with on_change_count := 2 }) ∧
    ({ two_item_prepared with on_change_count := 2 } : ChooserState).highlighted_choice =
      two_item_prepared.highlighted_choice := by
  refine ⟨by decide, by decide, rfl⟩

/-- Every successful `_set_highlighted` invokes `on_change` exactly once
(chooser.py lines 619-620), whether or not the highlight moved. -/
theorem set_highlighted_ok_count (s s' : ChooserState)
    (h : set_highlighted s = .ok s') :
    s'.on_change_count = s.on_change_count + 1 := by
  unfold set_highlighted set_highlighted_with at h
  dsimp only at h
  split at h
  · simp only [Except.ok.injEq] at h
    rw [← h]
  · split at h
    · simp at h
    · simp only [Except.ok.injEq] at h
      rw [← h]

/-- C9 (amended): after every handled navigation key that continues the
loop, `on_change` is invoked exactly once -- the resynchronization step
of `_choose` calls it unconditionally -- regardless of whether the
highlighted entry changed. -/
theorem onchange_fires_on_every_nav_key (cfg : ChooserConfig) (s s' : ChooserState)
    (k : String) (hnav : is_nav_key k = true) (hov : s.error_message = none)
    (hstep : step_with cfg chooser_handle_other_key s k = .ok (.cont s')) :
    s'.on_change_count = s.on_change_count + 1 := by
  have hovb : s.error_message.isSome = false := by simp [hov]
  simp only [is_nav_key, is_up_key, is_down_key, is_home_key, is_end_key,
    is_page_up_key, is_page_down_key, Bool.or_eq_true, beq_iff_eq] at hnav
  have main : ∀ s₀ : ChooserState,
      after_nav s₀ = .ok (.cont s') →
      s₀.on_change_count = s.on_change_count →
      s'.on_change_count = s.on_change_count + 1 := by
    intro s₀ h hc
    unfold after_nav at h
    cases hsh : set_highlighted s₀ with
    | error e => rw [hsh] at h; simp at h
    | ok s'' =>
      rw [hsh] at h
      simp only [Except.ok.injEq, StepOut.cont.injEq] at h
      rw [← h, set_highlighted_ok_count s₀ s'' hsh, hc]
  rcases hnav with ((((rfl | rfl) | rfl) | rfl) | rfl) | rfl <;>
    · simp only [step_with, is_up_key, is_down_key, is_home_key, is_end_key,
        is_page_up_key, is_page_down_key, is_confirm_key, is_cancel_key, hovb] at hstep
      exact main _ hstep rfl

/-- Witness for the amended C9: the clamped up-arrow of the
counterexample state still bumps the `on_change` counter by one. -/
theorem onchange_fires_on_every_nav_key_witness :
    is_nav_key "UP_ARROW" = true ∧
    two_item_prepared.error_message = none ∧
    step_with { wrap_navigation := false } chooser_handle_other_key
      two_item_prepared "UP_ARROW" =
      .ok (.cont { two_item_prepared with on_change_count := 2 }) ∧
    ({ two_item_prepared with on_change_count := 2 } : ChooserState).on_change_count =
      two_item_prepared.on_change_count + 1 :=
  ⟨by decide, rfl, by decide,
    onchange_fires_on_every_nav_key { wrap_navigation := false } two_item_prepared
      { two_item_prepared with on_change_count := 2 } "UP_ARROW"
      (by decide) rfl (by decide)⟩

/-- Filtering an empty master list yields an empty display list. -/
theorem filter_choices_nil (t : Str) : filter_choices [] t = [] := by
  unfold filter_choices
  split <;> simp

/-- With an empty master and filtered list the display list is empty. -/
theorem get_display_empty (s : ChooserState) (h1 : s.all_choices = [])
    (h2 : s.filtered_choices = []) : get_display_choices s = [] := by
  unfold get_display_choices
  split <;> simp [h1, h2]

/-- `_set_highlighted` on an empty display list takes the `None` branch:
no list subscript happens, the highlight is cleared. -/
theorem set_highlighted_empty (s : ChooserState) (h1 : s.all_choices = [])
    (h2 : s.filtered_choices = []) :
    set_highlighted s =
      .ok { s with
            highlighted_choice := none
            highlighted_index := 0
            on_change_count := s.on_change_count + 1 } := by
  unfold set_highlighted set_highlighted_with
  dsimp only
  rw [get_display_empty s h1 h2]
  rfl

/-- `_filter_choices` on an empty master list succeeds and keeps both
lists empty. -/
theorem filter_choices_state_empty (s : ChooserState) (h1 : s.all_choices = []) :
    ∃ s', filter_choices_state s = .ok s' ∧
      s'.all_choices = [] ∧ s'.filtered_choices = [] := by
  have hf : filter_choices s.all_choices s.filter_text = [] := by
    rw [h1]; exact filter_choices_nil _
  unfold filter_choices_state
  rw [hf]
  dsimp only
  rw [get_display_empty { s with filtered_choices := ([] : List Choice) } h1 rfl]
  simp only [List.map_nil, List.contains_nil, Bool.false_eq_true, if_false]
  refine ⟨_, set_highlighted_empty _ ?_ ?_, ?_, ?_⟩ <;> first | exact h1 | rfl

/-- `Chooser._handle_other_key` on an empty master list succeeds, returns
`False`, and keeps both lists empty. -/
theorem chooser_handle_other_key_empty (s : ChooserState) (h1 : s.all_choices = [])
    (h2 : s.filtered_choices = []) (k : String) :
    ∃ s', chooser_handle_other_key s k = .ok (s', false) ∧
      s'.all_choices = [] ∧ s'.filtered_choices = [] := by
  unfold chooser_handle_other_key
  split_ifs with hef hbk hte hsp hpr
  · exact ⟨s, rfl, h1, h2⟩
  · obtain ⟨s', hs', ha, hf⟩ := filter_choices_state_empty
      { s with filter_text := s.filter_text.dropLast } h1
    rw [hs']
    exact ⟨s', rfl, ha, hf⟩
  · obtain ⟨s', hs', ha, hf⟩ := filter_choices_state_empty
      { s with filter_text := s.filter_text ++ [' '] } h1
    rw [hs']
    exact ⟨s', rfl, ha, hf⟩
  · obtain ⟨s', hs', ha, hf⟩ := filter_choices_state_empty
      { s with filter_text := s.filter_text ++ k.toList } h1
    rw [hs']
    exact ⟨s', rfl, ha, hf⟩
  · exact ⟨s, rfl, h1, h2⟩
  · exact ⟨s, rfl, h1, h2⟩

/-- `after_nav` on a state with empty master and filtered lists never
errors: `_set_highlighted` takes its `None` branch. -/
theorem after_nav_empty (s0 : ChooserState) (h1 : s0.all_choices = [])
    (h2 : s0.filtered_choices = []) :
    after_nav s0 =
      .ok (.cont { s0 with
            highlighted_choice := none
            highlighted_index := 0
            on_change_count := s0.on_change_count + 1 }) := by
  unfold after_nav
  rw [set_highlighted_empty s0 h1 h2]

/-- Existential form of `after_nav_empty`, with the emptiness facts. -/
theorem after_nav_empty_cont (s0 : ChooserState) (h1 : s0.all_choices = [])
    (h2 : s0.filtered_choices = []) :
    ∃ s', after_nav s0 = .ok (.cont s') ∧
      s'.all_choices = [] ∧ s'.filtered_choices = [] :=
  ⟨_, after_nav_empty s0 h1 h2, h1, h2⟩

/-- One loop iteration over an empty choice list never hits an error
branch: it continues (with the lists still empty), confirms, or cancels
with the state unchanged. -/
theorem step_with_empty (cfg : ChooserConfig) (s : ChooserState) (k : String)
    (h1 : s.all_choices = []) (h2 : s.filtered_choices = []) :
    (∃ s', step_with cfg chooser_handle_other_key s k = .ok (.cont s') ∧
      s'.all_choices = [] ∧ s'.filtered_choices = []) ∨
    step_with cfg chooser_handle_other_key s k = .ok (.confirm s) ∨
    step_with cfg chooser_handle_other_key s k = .ok (.cancel s) := by
  unfold step_with
  dsimp only
  by_cases hke : (k == "") = true
  · rw [if_pos hke]
    exact Or.inl ⟨s, rfl, h1, h2⟩
  rw [if_neg hke]
  by_cases hov : s.error_message.isSome = true
  · rw [if_pos hov]
    exact Or.inl ⟨_, rfl, h1, h2⟩
  rw [if_neg hov]
  by_cases hup : is_up_key k = true
  · rw [if_pos hup]
    exact Or.inl (after_nav_empty_cont _ h1 h2)
  rw [if_neg hup]
  by_cases hdn : is_down_key k = true
  · rw [if_pos hdn]
    exact Or.inl (after_nav_empty_cont _ h1 h2)
  rw [if_neg hdn]
  by_cases hhm : is_home_key k = true
  · rw [if_pos hhm]
    exact Or.inl (after_nav_empty_cont _ h1 h2)
  rw [if_neg hhm]
  by_cases hed : is_end_key k = true
  · rw [if_pos hed]
    exact Or.inl (after_nav_empty_cont _ h1 h2)
  rw [if_neg hed]
  by_cases hpu : is_page_up_key k = true
  · rw [if_pos hpu]
    exact Or.inl (after_nav_empty_cont _ h1 h2)
  rw [if_neg hpu]
  by_cases hpd : is_page_down_key k = true
  · rw [if_pos hpd]
    exact Or.inl (after_nav_empty_cont _ h1 h2)
  rw [if_neg hpd]
  by_cases hcf : is_confirm_key k = true
  · rw [if_pos hcf]
    exact Or.inr (Or.inl rfl)
  rw [if_neg hcf]
  by_cases hcl : is_cancel_key k = true
  · rw [if_pos hcl]
    exact Or.inr (Or.inr rfl)
  rw [if_neg hcl]
  obtain ⟨s', hs', ha, hf⟩ := chooser_handle_other_key_empty s h1 h2 k
  rw [hs']
  dsimp only
  exact Or.inl (after_nav_empty_cont s' ha hf)

/-- C10: Empty-list totality: for a `Chooser` constructed over an empty
choices iterable (with or without filtering enabled) and any finite key
script, the run loop processes every key without ever reaching the
embedded out-of-bounds (`IndexError`) or attribute-error branch: the run
either consumes the whole script (the test reader's exhaustion signal) or
terminates through confirm or cancel with the `(None, None)` result. -/
theorem empty_chooser_total (cfg : ChooserConfig) (ef : Bool) (ks : List String) :
    chooser_run cfg (init_chooser_state [] ef) ks = .error .readerExhausted ∨
    ∃ sfin, chooser_run cfg (init_chooser_state [] ef) ks = .ok (none, sfin) := by
  have loop : ∀ (ks : List String) (s : ChooserState),
      s.all_choices = [] → s.filtered_choices = [] →
      chooser_run_loop cfg s ks = .error .readerExhausted ∨
      ∃ sfin, chooser_run_loop cfg s ks = .ok (none, sfin) := by
    intro ks
    induction ks with
    | nil => intro s _ _; exact Or.inl rfl
    | cons k ks ih =>
      intro s h1 h2
      rcases step_with_empty cfg s k h1 h2 with ⟨s', hs', ha, hf⟩ | hcf | hcl
      · unfold chooser_run_loop
        rw [hs']
        exact ih s' ha hf
      · unfold chooser_run_loop
        rw [hcf]
        dsimp only
        rw [set_highlighted_empty s h1 h2]
        exact Or.inr ⟨_, rfl⟩
      · unfold chooser_run_loop
        rw [hcl]
        exact Or.inr ⟨_, rfl⟩
  have hprep : ∃ s', prepare_choices (init_chooser_state [] ef) = .ok s' ∧
      s'.all_choices = [] ∧ s'.filtered_choices = [] := by
    unfold prepare_choices
    by_cases hef : (init_chooser_state [] ef).enable_filtering = true
    · rw [if_pos hef]
      exact filter_choices_state_empty (init_chooser_state [] ef) rfl
    · rw [if_neg hef]
      exact ⟨_, set_highlighted_empty (init_chooser_state [] ef) rfl rfl, rfl, rfl⟩
  obtain ⟨s', hs', ha, hf⟩ := hprep
  unfold chooser_run
  rw [hs']
  exact loop ks s' ha hf

/-- C3 (evaluation at the failing input): the public `run()` contract is
violated in the `get_rich` package -- `FilterChooser.run()` raises
`AttributeError: '_adjust_to_selection'` on every input, because its very
first `_prepare_choices` call runs `_filter_choices`, whose last
statement calls the nonexistent method (filter_chooser.py line 104);
the error fires even before the first key is read (second conjunct). -/
theorem filter_chooser_run_raises :
    filter_chooser_run false {} (init_chooser_state ["a".toList] true) ["ENTER"] =
      .error (.attributeError "_adjust_to_selection") ∧
    filter_chooser_run false {} (init_chooser_state ["a".toList] true) [] =
      .error (.attributeError "_adjust_to_selection") := by
  exact ⟨rfl, rfl⟩

/-- C8 (evaluation at the claimed scenario): for
`ShortcutChooser(choices=["a","b","c"])` in auto mode the key map would
indeed send `"2"` to index 1 (first conjunct), but `run()` with keys
`["2", ENTER]` never returns `("b", 1)`: the initial `_prepare_choices`
dispatches `_set_highlighted` into the overridden
`_get_display_choices`, whose first read of `self.choices`
(shortcut_chooser.py line 152) raises `AttributeError`. -/
theorem shortcut_chooser_run_raises :
    auto_shortcut_keys 3 = ["1", "2", "3"] ∧
    shortcut_chooser_run {}
      (init_chooser_state ["a".toList, "b".toList, "c".toList] false) ["2", "ENTER"] =
      .error (.attributeError "choices") := by
  exact ⟨rfl, rfl⟩

end GetRich
